import Mathlib

/-!
# Finalyze — conversational transaction-entry engine, shallow embedding

This file embeds the core of the Finalyze Telegram transaction bot in Lean 4:

* the input validators (`backend/src/utils/telegramValidation.js`),
* the in-memory session store (`backend/src/utils/telegramSession.js`),
* the transaction controller's persistence record construction
  (`backend/src/controllers/telegramTransaction.controller.js`), and
* the flow controller: the command/action/text handlers of
  `backend/src/services/telegram.service.js`, modelled as a step function on
  an explicit world state (session store + log of Transaction Sink `create`
  calls + outbound messages).

JS numbers are modelled as rationals (all inputs relevant here are short
decimal strings, on which IEEE-754 doubles and exact rational arithmetic
agree), timestamps as naturals (milliseconds), and calendar dates as integers
(days since 1970-01-01, the value of a JS `Date` at local midnight divided by
86400000).  External collaborators (Transaction Sink outcomes, Parser Client
results) are supplied by an environment record.
-/

namespace Finalyze

section
-- Batteries marks the rational-number ring operations `[irreducible]`, which
-- blocks `decide`/`rfl` evaluation of the embedded validators on concrete
-- inputs; restore the default reducibility inside this development.
attribute [local semireducible] Rat.mul Rat.add Rat.inv Rat.sub

/-- Result of a validator: `{valid:true, value}` or `{valid:false, error}`. -/
inductive VResult (α : Type) where
  | valid (value : α)
  | invalid (error : String)
deriving Repr, DecidableEq

/-- Returns `true` iff the validator accepted. -/
def VResult.isValid {α : Type} : VResult α → Bool
  | .valid _ => true
  | .invalid _ => false

/-- Returns `true` iff the validator rejected. -/
def VResult.isInvalid {α : Type} : VResult α → Bool
  | .valid _ => false
  | .invalid _ => true

/-- JS `String.prototype.trim`: drop leading and trailing whitespace.
(Implemented on the character list so it reduces inside the kernel.) -/
def jsTrim (s : String) : String :=
  String.mk (((s.data.dropWhile Char.isWhitespace).reverse.dropWhile
    Char.isWhitespace).reverse)

/-! ## JS `parseFloat` -/

/-- A JS number as produced by `parseFloat`: NaN, ±Infinity, or a finite
value (modelled exactly as a rational). -/
inductive JsNum where
  | nan
  | posInf
  | negInf
  | fin (q : ℚ)
deriving Repr, DecidableEq

/-- Numeric value of a list of decimal digit characters. -/
def digitsToNat (ds : List Char) : ℕ :=
  ds.foldl (fun acc c => 10 * acc + (c.toNat - '0'.toNat)) 0

/-- JS `parseFloat`: skip leading whitespace, optional sign, then the longest
prefix that is a decimal literal (`digits`, `digits.digits`, `.digits`,
optionally followed by an exponent `e`/`E` with optional sign and at least one
digit) or `Infinity`; anything else gives NaN.  Trailing garbage is ignored
(`"50abc"` parses as `50`). -/
def jsParseFloat (s : String) : JsNum :=
  let cs := s.data.dropWhile Char.isWhitespace
  -- optional sign
  let (neg, cs) : Bool × List Char :=
    match cs with
    | '+' :: rest => (false, rest)
    | '-' :: rest => (true, rest)
    | _ => (false, cs)
  if ("Infinity".data).isPrefixOf cs then
    if neg then .negInf else .posInf
  else
    let intPart := cs.takeWhile Char.isDigit
    let rest₁ := cs.dropWhile Char.isDigit
    let (fracPart, rest₂) : List Char × List Char :=
      match rest₁ with
      | '.' :: tail => (tail.takeWhile Char.isDigit, tail.dropWhile Char.isDigit)
      | _ => ([], rest₁)
    if intPart.isEmpty ∧ fracPart.isEmpty then .nan
    else
      -- exponent part (only applies when ≥ 1 digit follows e/E and sign)
      let exp : ℤ :=
        match rest₂ with
        | e :: tail =>
          if e = 'e' ∨ e = 'E' then
            let (eneg, tail₂) : Bool × List Char :=
              match tail with
              | '+' :: r => (false, r)
              | '-' :: r => (true, r)
              | _ => (false, tail)
            let eds := tail₂.takeWhile Char.isDigit
            if eds.isEmpty then 0
            else if eneg then -(digitsToNat eds : ℤ) else (digitsToNat eds : ℤ)
          else 0
        | [] => 0
      let mantissa : ℚ :=
        (digitsToNat intPart : ℚ) + (digitsToNat fracPart : ℚ) / (10 : ℚ) ^ fracPart.length
      let magnitude : ℚ := mantissa * (10 : ℚ) ^ exp
      .fin (if neg then -magnitude else magnitude)

/-! ## Amount validator (`validateAmount`) -/

/-- The currency symbols and separators removed by
`text.trim().replace(/[$€£¥₹,]/g, '')`. -/
def currencyChars : List Char := ['$', '€', '£', '¥', '₹', ',']

/-- The cleaning step `text.trim().replace(/[$€£¥₹,]/g, '')`. -/
def stripCurrency (text : String) : String :=
  String.mk ((jsTrim text).data.filter (fun c => !(currencyChars.contains c)))

/-- Floor of a rational, computed on the normalized numerator/denominator
(`Int.fdiv` is floor division; a `Rat`'s denominator is positive). -/
def ratFloor (q : ℚ) : ℤ := q.num.fdiv q.den

/-- JS `Math.round(x)`: round half toward positive infinity. -/
def jsRound (q : ℚ) : ℤ := ratFloor (q + 1 / 2)

/-- The rounding `Math.round(num * 100) / 100`: round to 2 decimal places. -/
def round2 (q : ℚ) : ℚ := (jsRound (q * 100) : ℚ) / 100

/-- Function `validateAmount` from `telegramValidation.js`: strip currency symbols and
separators, `parseFloat`, reject NaN, values ≤ 0 and values > 1 000 000 000,
otherwise round to 2 decimal places.  (`NaN` comparisons are all false in JS,
so `parseFloat` NaN is caught only by the `isNaN` check; −Infinity fails the
`num <= 0` check and +Infinity the `num > 1000000000` check, matching the
match arms below.) -/
def validateAmount (text : String) : VResult ℚ :=
  let cleaned := stripCurrency text
  match jsParseFloat cleaned with
  | .nan => .invalid "Please enter a valid number (e.g., 50 or 123.45)"
  | .negInf => .invalid "Amount must be greater than 0"
  | .posInf => .invalid "Amount is too large"
  | .fin num =>
    if num ≤ 0 then .invalid "Amount must be greater than 0"
    else if num > 1000000000 then .invalid "Amount is too large"
    else .valid (round2 num)

/-! ## Description validator (`validateDescription`) -/

/-- Function `validateDescription`: reject empty-after-trim or length > 200, otherwise
return the trimmed string. -/
def validateDescription (text : String) : VResult String :=
  let trimmed := jsTrim text
  if trimmed.length = 0 then .invalid "Description cannot be empty"
  else if trimmed.length > 200 then .invalid "Description is too long (max 200 characters)"
  else .valid trimmed

/-! ## Date validator (`validateDate`)

Calendar dates are modelled as integers counting days since 1970-01-01: the
value of a JS `Date` constructed at local midnight, divided by 86 400 000 ms.
The current date (`new Date()` with hours zeroed) is a parameter `today`. -/

/-- JS `String.prototype.toLowerCase` (on the character list so it reduces). -/
def jsToLower (s : String) : String := String.mk (s.data.map Char.toLower)

/-- Days since the epoch 1970-01-01 of the proleptic-Gregorian civil date
`y-m-d` with `m ∈ [1,12]` (Howard Hinnant's `days_from_civil`); linear in `d`,
so out-of-range days roll over exactly as JS `Date` day arithmetic does. -/
def daysFromCivil (y m d : Int) : Int :=
  let y' := if m ≤ 2 then y - 1 else y
  let era := y'.fdiv 400
  let yoe := y' - era * 400
  let mp := (m + 9) % 12
  let doy := (153 * mp + 2).fdiv 5 + d - 1
  let doe := yoe * 365 + yoe.fdiv 4 - yoe.fdiv 100 + doy
  era * 146097 + doe - 719468

/-- ECMAScript `MakeDay(year, month, date)`: the month index (0-based, any
integer) is normalized into the year, and the day offsets from the 1st of
that month — this is the rollover behaviour of `new Date(y, m, d)`. -/
def jsMakeDay (year month day : Int) : Int :=
  let ym := year + month.fdiv 12
  let mn := month.fmod 12
  daysFromCivil ym (mn + 1) day

/-- The two-digit-year rule of the `Date` constructor: years 0–99 mean
1900–1999. -/
def jsFullYear (y : Int) : Int := if 0 ≤ y ∧ y ≤ 99 then 1900 + y else y

/-- JS `new Date(year, monthIndex, day)` at local midnight, as epoch days.
For the 4-digit years produced by the validator's regexes the result is
always inside the JS `Date` range, so `isNaN(date.getTime())` is false and
the validator's `isNaN` branches are unreachable. -/
def jsNewDate (year monthIndex day : Int) : Int :=
  jsMakeDay (jsFullYear year) monthIndex day

/-- The regex `^(\d{4})-(\d{2})-(\d{2})$` with its three capture groups
`parseInt`ed. -/
def parseISO (s : String) : Option (Int × Int × Int) :=
  match s.data with
  | [a, b, c, d, '-', e, f, '-', g, h] =>
    if [a, b, c, d, e, f, g, h].all Char.isDigit then
      some ((digitsToNat [a, b, c, d] : Int), (digitsToNat [e, f] : Int),
        (digitsToNat [g, h] : Int))
    else none
  | _ => none

/-- The regex `^(\d{1,2})[\/\-](\d{1,2})[\/\-](\d{4})$` with its capture
groups `parseInt`ed.  (Greedy `takeWhile` agrees with the regex here because
the separators are not digits.) -/
def parseSlash (s : String) : Option (Int × Int × Int) :=
  let cs := s.data
  let p1 := cs.takeWhile Char.isDigit
  if p1.length = 0 ∨ p1.length > 2 then none
  else
    match cs.dropWhile Char.isDigit with
    | sep1 :: r2 =>
      if sep1 = '/' ∨ sep1 = '-' then
        let p2 := r2.takeWhile Char.isDigit
        if p2.length = 0 ∨ p2.length > 2 then none
        else
          match r2.dropWhile Char.isDigit with
          | sep2 :: r4 =>
            if (sep2 = '/' ∨ sep2 = '-') ∧ r4.length = 4 ∧ r4.all Char.isDigit then
              some ((digitsToNat p1 : Int), (digitsToNat p2 : Int),
                (digitsToNat r4 : Int))
            else none
          | [] => none
      else none
    | [] => none

/-- Function `validateDate` from `telegramValidation.js`: the tokens `today` and
`yesterday`, ISO `YYYY-MM-DD`, and `DD/MM/YYYY` (assumed day-before-month);
dates strictly after `today` are rejected, as is everything else. -/
def validateDate (today : Int) (text : String) : VResult Int :=
  let trimmed := jsToLower (jsTrim text)
  if trimmed = "today" then .valid today
  else if trimmed = "yesterday" then .valid (today - 1)
  else
    match parseISO trimmed with
    | some (year, month, day) =>
      let date := jsNewDate year (month - 1) day
      if date > today then .invalid "Date cannot be in the future"
      else .valid date
    | none =>
      match parseSlash trimmed with
      | some (part1, part2, year) =>
        -- Assume DD/MM/YYYY format
        let date := jsNewDate year (part2 - 1) part1
        if date > today then .invalid "Date cannot be in the future"
        else .valid date
      | none => .invalid "Invalid date format. Use \"today\", \"yesterday\", or YYYY-MM-DD"

/-! ## Session data model

JS session objects are loosely-typed records whose fields may be absent;
absence is modelled with `Option`.  `tempTransaction` (the Manual-mode draft)
and the NLP candidates share one record shape: the transaction data passed to
`createTransaction`. -/

/-- A (possibly partial) transaction record: the Manual draft
(`tempTransaction`), an NLP candidate, and the argument of the Transaction
Sink's `create` all have this shape. -/
structure TxData where
  amount : Option ℚ := none
  type : Option String := none
  category : Option String := none
  description : Option String := none
  date : Option Int := none
deriving Repr, DecidableEq

/-- One conversation's session object (`telegramSession.js`).  `timestamp` is
`lastActivity` in milliseconds. -/
structure Session where
  mode : Option String := none
  step : Option String := none
  tempTransaction : Option TxData := none
  parsedTransactions : Option (List TxData) := none
  savedCount : Option ℕ := none
  timestamp : ℕ := 0
deriving Repr, DecidableEq

/-- A partial-fields argument to `update` (`{...existing, ...updates}`):
`some` fields overwrite, `none` fields keep the existing value. -/
structure SessionPatch where
  mode : Option String := none
  step : Option String := none
  tempTransaction : Option (Option TxData) := none
  parsedTransactions : Option (Option (List TxData)) := none
  savedCount : Option (Option ℕ) := none
deriving Repr, DecidableEq

/-- JS object spread `{...s, ...p}`. -/
def applyPatch (s : Session) (p : SessionPatch) : Session :=
  { mode := (p.mode).orElse (fun _ => s.mode)
    step := (p.step).orElse (fun _ => s.step)
    tempTransaction := p.tempTransaction.getD s.tempTransaction
    parsedTransactions := p.parsedTransactions.getD s.parsedTransactions
    savedCount := p.savedCount.getD s.savedCount
    timestamp := s.timestamp }

/-! ## Session Store (`TelegramSessionStore`) -/

/-- The `Map` of sessions, keyed by `chatId.toString()`. -/
abbrev Store := List (String × Session)

/-- Lookup, as JS `Map.get`. -/
def sessionsFind (st : Store) (id : String) : Option Session := st.lookup id

/-- Insertion, as JS `Map.set`. -/
def sessionsInsert (st : Store) (id : String) (s : Session) : Store :=
  (id, s) :: st.filter (fun p => p.1 ≠ id)

/-- Deletion, as JS `Map.delete`. -/
def sessionsDelete (st : Store) (id : String) : Store :=
  st.filter (fun p => p.1 ≠ id)

/-- 30 minutes in milliseconds. -/
def SESSION_TIMEOUT : ℕ := 30 * 60 * 1000

/-- Store method `clear(chatId)`. -/
def storeClear (st : Store) (chatId : String) : Store := sessionsDelete st chatId

/-- Result of `get`: the possibly-changed map (lazy expiry deletes) plus the
returned session or `null`. -/
structure GetResult where
  store : Store
  session : Option Session
deriving Repr, DecidableEq

/-- Store method `get(chatId)` at time `now`: a stored session whose age exceeds
`SESSION_TIMEOUT` is deleted and `null` is returned; a live session is
returned unmodified (in particular its `timestamp` is not refreshed).
(`now - timestamp` on ℕ truncates at 0 exactly as the JS comparison never
exceeds the timeout for a future timestamp.) -/
def storeGet (now : ℕ) (st : Store) (chatId : String) : GetResult :=
  match sessionsFind st chatId with
  | none => ⟨st, none⟩
  | some session =>
    if now - session.timestamp > SESSION_TIMEOUT then ⟨storeClear st chatId, none⟩
    else ⟨st, some session⟩

/-- Store method `set(chatId, data)`: stores `{...data, timestamp: Date.now()}`. -/
def storeSet (now : ℕ) (st : Store) (chatId : String) (data : Session) : Store :=
  sessionsInsert st chatId { data with timestamp := now }

/-- Store method `update(chatId, updates)`: read (with lazy expiry) — or an empty object —
then `set` the spread, which refreshes the timestamp. -/
def storeUpdate (now : ℕ) (st : Store) (chatId : String) (p : SessionPatch) : Store :=
  let r := storeGet now st chatId
  storeSet now r.store chatId (applyPatch (r.session.getD {}) p)

/-- Store method `has(chatId)`: `get(chatId) !== null` (and hence also lazily expires). -/
def storeHas (now : ℕ) (st : Store) (chatId : String) : Store × Bool :=
  let r := storeGet now st chatId
  (r.store, r.session.isSome)

/-- In-place mutation of a stored session object (JS aliasing:
`session.savedCount = ...` on the object returned by `get` writes through to
the map without touching `timestamp`). -/
def storeMutate (st : Store) (chatId : String) (s : Session) : Store :=
  sessionsInsert st chatId s

/-- The 5-minute background sweep (`cleanupExpiredSessions`). -/
def cleanupExpiredSessions (now : ℕ) (st : Store) : Store :=
  st.filter (fun p => !(now - p.2.timestamp > SESSION_TIMEOUT))

/-! ## Flow Controller (`telegram.service.js` handlers)

Each inbound event is routed to its handler (Telegraf `action`/`text`
registration); the handler reads and writes the session store, may call the
Transaction Sink (`transactionController.createTransaction`) or the Parser
Client (`parseNLPTransaction`), and emits outbound messages.  The two
external collaborators are supplied by `Env`: `sinkOk n` is the outcome of
the `n`-th `create` call of the run, and `parseResult` the Parser Client's
answer (`none` = the service threw, `some l` = the candidate list). -/

/-- External inputs of a run: the clock, the current date, the Transaction
Sink outcomes and the Parser Client result. -/
structure Env where
  now : ℕ
  today : Int
  sinkOk : ℕ → Bool
  parseResult : Option (List TxData)

/-- Outbound messages, abstracted to the information the spec talks about. -/
inductive Out where
  | sessionExpired
  | promptType
  | promptCategory (t : String)
  | promptAmount
  | promptDescription
  | promptDate
  | promptCustomDate
  | promptNlpText
  | validationError (field error : String)
  | confirmPreview (t : TxData)
  | savedOk
  | saveFailed
  | editCancelled
  | cancelledMsg
  | multiPreview (index total : ℕ)
  | multiSavedOk (n : ℕ)
  | multiSaved (n : ℕ)
  | noneSaved
  | multiFailContinue
  | processCompleted
  | cancelledWithCount (n : ℕ)
  | cancelledPlain
  | parsing
  | nothingParsed
  | parseFailed
  | helpPrompt
  | linkingFlow
deriving Repr, DecidableEq

/-- The observable state of a run: the session store, the ordered log of
Transaction Sink `create` calls (each with its argument), and the outbound
messages. -/
structure World where
  store : Store := []
  creates : List TxData := []
  replies : List Out := []
deriving Repr, DecidableEq

/-- Emit an outbound message. -/
def World.reply (w : World) (o : Out) : World :=
  { w with replies := w.replies ++ [o] }

/-- Inbound events of the transaction flows (already routed: a callback query
matched against the registered `action` patterns, or a plain text message). -/
inductive Event where
  | modeManual
  | modeNlp
  | typeSel (t : String)
  | catSel (t c : String)
  | dateSel (d : String)
  | confirmSave
  | confirmEdit
  | confirmCancel
  | confirmMulti (index : ℕ)
  | skipMulti (index : ℕ)
  | cancelAllMulti
  | textMsg (text : String)
deriving Repr, DecidableEq

/-- Handler helper `showConfirmation`: re-read the session and print the Manual draft
preview.  (A missing session would throw in JS; every caller has just stored
one.) -/
def showConfirmation (env : Env) (cid : String) (w : World) : World :=
  let r := storeGet env.now w.store cid
  let w := { w with store := r.store }
  match r.session with
  | some s => w.reply (.confirmPreview (s.tempTransaction.getD {}))
  | none => w

/-- Handler helper `showMultiTransactionPreview`: re-read the session and print candidate
`index` of `total`.  (A missing session would throw in JS; every caller has
one in the store.) -/
def showMultiTransactionPreview (env : Env) (cid : String) (w : World)
    (index : ℕ) : World :=
  let r := storeGet env.now w.store cid
  let w := { w with store := r.store }
  match r.session with
  | some s => w.reply (.multiPreview index ((s.parsedTransactions.getD []).length))
  | none => w

/-- Handler `handleManualInput`: free-text input during the Manual flow, dispatched
on the current step; unmatched steps fall through with no effect. -/
def handleManualInput (env : Env) (cid : String) (w : World) (s : Session)
    (text : String) : World :=
  if s.step = some "amount" then
    match validateAmount text with
    | .invalid e => w.reply (.validationError "Amount" e)
    | .valid v =>
      let s' := { s with
        tempTransaction := some { s.tempTransaction.getD {} with amount := some v }
        step := some "description" }
      { w with store := storeSet env.now w.store cid s' }.reply .promptDescription
  else if s.step = some "description" then
    match validateDescription text with
    | .invalid e => w.reply (.validationError "Description" e)
    | .valid v =>
      let s' := { s with
        tempTransaction := some { s.tempTransaction.getD {} with description := some v }
        step := some "date" }
      { w with store := storeSet env.now w.store cid s' }.reply .promptDate
  else if s.step = some "custom_date" then
    match validateDate env.today text with
    | .invalid e => w.reply (.validationError "Date" e)
    | .valid v =>
      let s' := { s with
        tempTransaction := some { s.tempTransaction.getD {} with date := some v }
        step := some "confirm" }
      showConfirmation env cid { w with store := storeSet env.now w.store cid s' }
  else w

/-- Handler `handleNLPInput`: free text during NLP mode is sent to the Parser Client;
a thrown parse is reported, an empty candidate list is reported (the session
is left as it was), a non-empty list enters the review loop with
`savedCount = 0` and the first preview. -/
def handleNLPInput (env : Env) (cid : String) (w : World) (s : Session) : World :=
  if s.step ≠ some "text_input" then w
  else
    let w := w.reply .parsing
    match env.parseResult with
    | none => w.reply .parseFailed
    | some parsedTransactions =>
      if parsedTransactions.length = 0 then w.reply .nothingParsed
      else
        let s' := { s with
          parsedTransactions := some parsedTransactions
          savedCount := some 0
          step := some "confirm_multi" }
        showMultiTransactionPreview env cid
          { w with store := storeSet env.now w.store cid s' } 1

/-- One inbound event, processed by the matching registered handler. -/
def step (env : Env) (cid : String) (w : World) (e : Event) : World :=
  match e with
  | .modeManual =>
    let st := storeSet env.now w.store cid
      { mode := some "manual", step := some "type", tempTransaction := some {} }
    ({ w with store := st }).reply .promptType
  | .modeNlp =>
    let st := storeSet env.now w.store cid
      { mode := some "nlp", step := some "text_input" }
    ({ w with store := st }).reply .promptNlpText
  | .typeSel t =>
    let r := storeGet env.now w.store cid
    let w := { w with store := r.store }
    match r.session with
    | none => w.reply .sessionExpired
    | some s =>
      if s.mode ≠ some "manual" then w.reply .sessionExpired
      else
        let s' := { s with
          tempTransaction := some { s.tempTransaction.getD {} with type := some t }
          step := some "category" }
        ({ w with store := storeSet env.now w.store cid s' }).reply (.promptCategory t)
  | .catSel _ c =>
    let r := storeGet env.now w.store cid
    let w := { w with store := r.store }
    match r.session with
    | none => w.reply .sessionExpired
    | some s =>
      if s.mode ≠ some "manual" then w.reply .sessionExpired
      else
        let s' := { s with
          tempTransaction := some { s.tempTransaction.getD {} with category := some c }
          step := some "amount" }
        ({ w with store := storeSet env.now w.store cid s' }).reply .promptAmount
  | .dateSel d =>
    let r := storeGet env.now w.store cid
    let w := { w with store := r.store }
    match r.session with
    | none => w.reply .sessionExpired
    | some s =>
      if s.mode ≠ some "manual" then w.reply .sessionExpired
      else if d = "custom" then
        let s' := { s with step := some "custom_date" }
        ({ w with store := storeSet env.now w.store cid s' }).reply .promptCustomDate
      else
        let dateVal := if d = "yesterday" then env.today - 1 else env.today
        let s' := { s with
          tempTransaction := some { s.tempTransaction.getD {} with date := some dateVal }
          step := some "confirm" }
        showConfirmation env cid { w with store := storeSet env.now w.store cid s' }
  | .confirmSave =>
    let r := storeGet env.now w.store cid
    let w := { w with store := r.store }
    match r.session with
    | none => w.reply .sessionExpired
    | some s =>
      match s.tempTransaction with
      | none => w.reply .sessionExpired
      | some tt =>
        let ok := env.sinkOk w.creates.length
        let w := { w with creates := w.creates ++ [tt] }
        if ok then
          ({ w with store := storeClear w.store cid }).reply .savedOk
        else w.reply .saveFailed
  | .confirmEdit =>
    ({ w with store := storeClear w.store cid }).reply .editCancelled
  | .confirmCancel =>
    ({ w with store := storeClear w.store cid }).reply .cancelledMsg
  | .confirmMulti index =>
    let r := storeGet env.now w.store cid
    let w := { w with store := r.store }
    match r.session with
    | none => w.reply .sessionExpired
    | some s =>
      match s.parsedTransactions with
      | none => w.reply .sessionExpired
      | some list =>
        match list.get? (index - 1) with
        | none =>
          -- `parsedTransactions[index-1]` is `undefined`; `createTransaction`
          -- throws on it before reaching the database, so the catch runs
          -- without a sink call being logged.
          let w := w.reply .multiFailContinue
          if index < list.length then showMultiTransactionPreview env cid w (index + 1)
          else w.reply .processCompleted
        | some transaction =>
          let ok := env.sinkOk w.creates.length
          let w := { w with creates := w.creates ++ [transaction] }
          if ok then
            let n := s.savedCount.getD 0 + 1
            let w := { w with store := storeMutate w.store cid { s with savedCount := some n } }
            if index < list.length then showMultiTransactionPreview env cid w (index + 1)
            else
              ({ w with store := storeClear w.store cid }).reply (.multiSavedOk n)
          else
            let w := w.reply .multiFailContinue
            if index < list.length then showMultiTransactionPreview env cid w (index + 1)
            else w.reply .processCompleted
  | .skipMulti index =>
    let r := storeGet env.now w.store cid
    let w := { w with store := r.store }
    match r.session with
    | none => w.reply .sessionExpired
    | some s =>
      match s.parsedTransactions with
      | none => w.reply .sessionExpired
      | some list =>
        if index < list.length then showMultiTransactionPreview env cid w (index + 1)
        else
          let saved := s.savedCount.getD 0
          let w := { w with store := storeClear w.store cid }
          w.reply (if saved > 0 then .multiSaved saved else .noneSaved)
  | .cancelAllMulti =>
    let r := storeGet env.now w.store cid
    let saved := (r.session.bind Session.savedCount).getD 0
    let w := { w with store := storeClear r.store cid }
    w.reply (if saved > 0 then .cancelledWithCount saved else .cancelledPlain)
  | .textMsg text =>
    if ['/'].isPrefixOf text.data then w
    else
      let r := storeGet env.now w.store cid
      let w := { w with store := r.store }
      match r.session with
      | none => w.reply .helpPrompt
      | some s =>
        if s.mode = some "linking" ∧ s.step = some "email_input" then
          -- delegated to the external identity-linking call (outside the core)
          w.reply .linkingFlow
        else if s.mode = some "manual" then handleManualInput env cid w s text
        else if s.mode = some "nlp" then handleNLPInput env cid w s
        else w

/-- A sequence of inbound events for one conversation. -/
def run (env : Env) (cid : String) (w : World) (events : List Event) : World :=
  events.foldl (step env cid) w

/-! ## Transaction persistence (`telegramTransaction.controller.js`) -/

/-- Function `capitalizeCategory`: `'Other'` for a falsy (missing or empty) category,
otherwise `charAt(0).toUpperCase() + slice(1).toLowerCase()`. -/
def capitalizeCategory (category : Option String) : String :=
  match category with
  | none => "Other"
  | some s =>
    if s = "" then "Other"
    else String.mk ((s.data.take 1).map Char.toUpper ++ (s.data.drop 1).map Char.toLower)

/-- The document stored by `createTransaction` (the fields the controller
sets on the new `Transaction`; `userId` is outside the embedded core). -/
structure SavedTransaction where
  amount : Option ℚ
  type : Option String
  category : String
  description : Option String
  date : Int
deriving Repr, DecidableEq

/-- Sink call `createTransaction(transactionData, userId)`: the record handed to the
database — category capitalized, date defaulted to the current time
(`transactionData.date || new Date()`), the rest verbatim. -/
def createTransactionRecord (nowDate : Int) (transactionData : TxData) :
    SavedTransaction :=
  { amount := transactionData.amount
    type := transactionData.type
    category := capitalizeCategory transactionData.category
    description := transactionData.description
    date := transactionData.date.getD nowDate }

/-- The spec's wording of the category normalization: first letter uppercase,
remainder lowercase, with missing or empty categories stored as `Other`.
Written independently of `capitalizeCategory` and proved equal to it in the
claim theorem below. -/
def normalizedCategory (category : Option String) : String :=
  match category with
  | none => "Other"
  | some s =>
    match s.data with
    | [] => "Other"
    | c :: cs => String.mk (c.toUpper :: cs.map Char.toLower)

/-- The manual-flow event sequence of the spec's test property:
[start-manual, type=expense, category=food, amount="50",
description="Lunch", date=today, confirm]. -/
def manualEvents : List Event :=
  [.modeManual, .typeSel "expense", .catSel "expense" "food",
   .textMsg "50", .textMsg "Lunch", .dateSel "today", .confirmSave]

/-! ## Sanity checks (concrete evaluations of the embedded code) -/

example : validateAmount "50" = .valid 50 := by decide
example : validateAmount "$1,234.5" = .valid (2469/2) := by decide
example : validateAmount "₹50" = .valid 50 := by decide
example : validateAmount "abc" = .invalid "Please enter a valid number (e.g., 50 or 123.45)" := by decide
example : validateAmount "-5" = .invalid "Amount must be greater than 0" := by decide
example : validateAmount "2e10" = .invalid "Amount is too large" := by decide
example : validateAmount "123.456" = .valid (6173/50) := by decide
example : validateAmount "Infinity" = .invalid "Amount is too large" := by decide
example : validateDescription "  Lunch at cafe  " = .valid "Lunch at cafe" := by decide

example : daysFromCivil 1970 1 1 = 0 := by decide
example : daysFromCivil 1969 12 31 = -1 := by decide
example : daysFromCivil 2024 2 5 = 19758 := by decide
example : daysFromCivil 2000 3 1 = 11017 := by decide
example : jsNewDate 50 1 5 = daysFromCivil 1950 2 5 := by decide
example : jsNewDate 2024 1 30 = daysFromCivil 2024 3 1 := by decide
example : validateDate 20738 "2024-02-05" = .valid 19758 := by decide
example : validateDate 20738 " Today " = .valid 20738 := by decide
example : validateDate 20738 "yesterday" = .valid 20737 := by decide
example : validateDate 20738 "05/02/2024" = .valid 19758 := by decide
example : validateDate 20738 "5-2-2024" = .valid 19758 := by decide
example : validateDate 19757 "2024-02-05" = .invalid "Date cannot be in the future" := by decide
example : (validateDate 20738 "hello").isInvalid = true := by decide
example : (validateDate 20738 "13/13/2024").isValid = true := by decide

example : daysFromCivil 1970 1 1 = 0 := by decide
example : daysFromCivil 1969 12 31 = -1 := by decide
example : daysFromCivil 2024 2 5 = 19758 := by decide
example : daysFromCivil 2000 3 1 = 11017 := by decide
example : jsNewDate 50 1 5 = daysFromCivil 1950 2 5 := by decide
example : jsNewDate 2024 1 30 = daysFromCivil 2024 3 1 := by decide
example : validateDate 20738 "2024-02-05" = .valid 19758 := by decide
example : validateDate 20738 " Today " = .valid 20738 := by decide
example : validateDate 20738 "yesterday" = .valid 20737 := by decide
example : validateDate 20738 "05/02/2024" = .valid 19758 := by decide
example : validateDate 20738 "5-2-2024" = .valid 19758 := by decide
example : validateDate 19757 "2024-02-05" = .invalid "Date cannot be in the future" := by decide
example : (validateDate 20738 "hello").isInvalid = true := by decide

example : capitalizeCategory (some "fOOD") = "Food" := by decide
example : capitalizeCategory (some "") = "Other" := by decide
example : capitalizeCategory none = "Other" := by decide

example :
    (run ⟨0, 20738, fun _ => true, none⟩ "1" {} manualEvents).creates =
      [{ amount := some 50, type := some "expense", category := some "food",
         description := some "Lunch", date := some 20738 }] := by decide

example :
    sessionsFind (run ⟨0, 20738, fun _ => true, none⟩ "1" {} manualEvents).store "1"
      = none := by decide

/-! ## Store lemmas -/

theorem sessionsFind_insert (st : Store) (id : String) (s : Session) :
    sessionsFind (sessionsInsert st id s) id = some s := by
  simp [sessionsFind, sessionsInsert, List.lookup]

theorem sessionsFind_delete (st : Store) (id : String) :
    sessionsFind (sessionsDelete st id) id = none := by
  induction st with
  | nil => rfl
  | cons p t ih =>
    unfold sessionsFind sessionsDelete at *
    rw [List.filter_cons]
    by_cases h : p.1 = id
    · simpa [h] using ih
    · have hbeq : (id == p.1) = false := beq_false_of_ne (Ne.symm h)
      simpa [h, List.lookup, hbeq] using ih

theorem storeGet_some {now : ℕ} {st : Store} {id : String} {s : Session}
    (h : (storeGet now st id).session = some s) :
    sessionsFind st id = some s ∧ (storeGet now st id).store = st := by
  cases hf : sessionsFind st id with
  | none =>
    simp only [storeGet, hf] at h
    exact Option.noConfusion h
  | some s₀ =>
    by_cases hexp : now - s₀.timestamp > SESSION_TIMEOUT
    · simp only [storeGet, hf, if_pos hexp] at h
      exact Option.noConfusion h
    · simp only [storeGet, hf, if_neg hexp] at h
      exact ⟨h, by simp only [storeGet, hf, if_neg hexp]⟩

theorem storeGet_eq {now : ℕ} {st : Store} {id : String} {s : Session}
    (h : (storeGet now st id).session = some s) :
    storeGet now st id = ⟨st, some s⟩ := by
  have h2 := storeGet_some h
  calc storeGet now st id
      = ⟨(storeGet now st id).store, (storeGet now st id).session⟩ := rfl
    _ = ⟨st, some s⟩ := by rw [h2.2, h]

theorem storeGet_not_expired {now : ℕ} {st : Store} {id : String} {s : Session}
    (h : (storeGet now st id).session = some s) :
    ¬ now - s.timestamp > SESSION_TIMEOUT := by
  cases hf : sessionsFind st id with
  | none =>
    simp only [storeGet, hf] at h
    exact Option.noConfusion h
  | some s₀ =>
    by_cases hexp : now - s₀.timestamp > SESSION_TIMEOUT
    · simp only [storeGet, hf, if_pos hexp] at h
      exact Option.noConfusion h
    · simp only [storeGet, hf, if_neg hexp] at h
      obtain rfl := Option.some.inj h
      exact hexp

theorem storeGet_insert {now : ℕ} (st : Store) (id : String) {s : Session}
    (hexp : ¬ now - s.timestamp > SESSION_TIMEOUT) :
    storeGet now (sessionsInsert st id s) id = ⟨sessionsInsert st id s, some s⟩ := by
  simp only [storeGet, sessionsFind_insert, if_neg hexp]

/-! ## Claim theorems -/

/-- C1: Manual flow end-to-end — starting with no session, the event sequence
[start-manual, type=expense, category=food, amount="50", description="Lunch",
date=today, confirm] issues exactly one Transaction Sink `create` call
carrying `{type: expense, category: food, amount: 50.00, description:
"Lunch", date: today}`, and afterwards the session for that conversation is
cleared. -/
theorem manual_flow_single_create (today : Int) :
    (run ⟨0, today, fun _ => true, none⟩ "1" {} manualEvents).creates =
      [{ amount := some 50, type := some "expense", category := some "food",
         description := some "Lunch", date := some today }] ∧
    sessionsFind (run ⟨0, today, fun _ => true, none⟩ "1" {} manualEvents).store "1"
      = none :=
  ⟨rfl, rfl⟩

/-- C2: NLP flow counting — with a parse result of exactly two candidates,
confirming the first and skipping the second issues exactly one Sink `create`
call and finally reports `savedCount = 1`; confirming both issues the two
`create` calls in candidate order and finally reports `savedCount = 2`. -/
theorem nlp_confirm_skip_counts (c₁ c₂ : TxData) :
    (let wA := run ⟨0, 0, fun _ => true, some [c₁, c₂]⟩ "1" {}
        [.modeNlp, .textMsg "lunch and uber", .confirmMulti 1, .skipMulti 2]
     wA.creates = [c₁] ∧ wA.replies.getLast? = some (.multiSaved 1)) ∧
    (let wB := run ⟨0, 0, fun _ => true, some [c₁, c₂]⟩ "1" {}
        [.modeNlp, .textMsg "lunch and uber", .confirmMulti 1, .confirmMulti 2]
     wB.creates = [c₁, c₂] ∧ wB.replies.getLast? = some (.multiSavedOk 2)) :=
  ⟨⟨rfl, rfl⟩, ⟨rfl, rfl⟩⟩

/-- C5: Cancel-all after exactly one of three candidates was confirmed
reports `savedCount = 1`, and immediately afterwards `has(conversationId)` on
the Session Store returns false (exactly one `create` call was made). -/
theorem cancel_all_after_one_confirmed (c₁ c₂ c₃ : TxData) :
    let w := run ⟨0, 0, fun _ => true, some [c₁, c₂, c₃]⟩ "1" {}
      [.modeNlp, .textMsg "three things", .confirmMulti 1, .cancelAllMulti]
    w.replies.getLast? = some (.cancelledWithCount 1) ∧
    (storeHas 0 w.store "1").2 = false ∧
    w.creates = [c₁] :=
  ⟨rfl, rfl, rfl⟩

/-- C6: Lazy expiry — any stored session whose age `now - timestamp` exceeds
the 30-minute timeout is deleted by Session Store `get`, which returns
absent, independent of the background sweep. -/
theorem session_get_lazy_expiry (now : ℕ) (st : Store) (id : String)
    (s : Session) (hfind : sessionsFind st id = some s)
    (hexp : now - s.timestamp > SESSION_TIMEOUT) :
    (storeGet now st id).session = none ∧
    sessionsFind (storeGet now st id).store id = none := by
  have hg : storeGet now st id = ⟨storeClear st id, none⟩ := by
    simp only [storeGet, hfind, if_pos hexp]
  rw [hg]
  exact ⟨rfl, sessionsFind_delete st id⟩

/-- Witness for C6 at a concrete store: one session last active at time 0,
read at 30 minutes + 1 ms. -/
theorem session_get_lazy_expiry_witness :
    (storeGet 1800001 [("1", { mode := some "manual", timestamp := 0 })] "1").session
      = none ∧
    sessionsFind
      (storeGet 1800001 [("1", { mode := some "manual", timestamp := 0 })] "1").store
      "1" = none :=
  session_get_lazy_expiry 1800001 _ "1" { mode := some "manual", timestamp := 0 }
    rfl (by decide)

/-- C3 counterexample: after an NLP submission whose parse yields zero
candidates, the "nothing parsable" message is emitted but the session is NOT
cleared — it is still stored with `mode = nlp`, `step = text_input` (the
conversation has not returned to `mode None`). -/
theorem nlp_zero_candidates_not_cleared :
    (run ⟨0, 0, fun _ => true, some []⟩ "1" {} [.modeNlp, .textMsg "gibberish"]).replies
      = [.promptNlpText, .parsing, .nothingParsed] ∧
    sessionsFind
        (run ⟨0, 0, fun _ => true, some []⟩ "1" {} [.modeNlp, .textMsg "gibberish"]).store
        "1" =
      some { mode := some "nlp", step := some "text_input", timestamp := 0 } :=
  ⟨rfl, rfl⟩

/-- C3 (amended): an NLP submission with zero parsed candidates is a soft
failure — the controller emits the nothing-parsable message, issues no Sink
call, and does not enter the review loop; but instead of clearing the
session it leaves it untouched (still `mode = nlp`, `step = text_input`). -/
theorem nlp_zero_candidates_soft_failure (env : Env) (cid : String) (w : World)
    (s : Session) (t : String)
    (hp : env.parseResult = some [])
    (hget : (storeGet env.now w.store cid).session = some s)
    (hmode : s.mode = some "nlp") (hstep : s.step = some "text_input")
    (hns : (['/'].isPrefixOf t.data) = false) :
    (step env cid w (.textMsg t)).creates = w.creates ∧
    (step env cid w (.textMsg t)).store = w.store ∧
    sessionsFind (step env cid w (.textMsg t)).store cid = some s ∧
    (step env cid w (.textMsg t)).replies = w.replies ++ [.parsing, .nothingParsed] := by
  have hr := storeGet_eq hget
  have hfind := (storeGet_some hget).1
  simp [step, hr, handleNLPInput, World.reply, hns, hp, hmode, hstep, hfind]

/-- Session used in the witness for C3's amended theorem. -/
def c3Session : Session :=
  { mode := some "nlp", step := some "text_input", timestamp := 0 }

/-- Witness for C3's amended theorem at a concrete world. -/
theorem nlp_zero_candidates_soft_failure_witness :
    (step ⟨0, 0, fun _ => true, some []⟩ "1" { store := [("1", c3Session)] }
        (.textMsg "gibberish")).creates = ({ store := [("1", c3Session)] } : World).creates ∧
    (step ⟨0, 0, fun _ => true, some []⟩ "1" { store := [("1", c3Session)] }
        (.textMsg "gibberish")).store = ({ store := [("1", c3Session)] } : World).store ∧
    sessionsFind
        (step ⟨0, 0, fun _ => true, some []⟩ "1" { store := [("1", c3Session)] }
          (.textMsg "gibberish")).store "1" = some c3Session ∧
    (step ⟨0, 0, fun _ => true, some []⟩ "1" { store := [("1", c3Session)] }
        (.textMsg "gibberish")).replies =
      ({ store := [("1", c3Session)] } : World).replies ++ [.parsing, .nothingParsed] :=
  nlp_zero_candidates_soft_failure ⟨0, 0, fun _ => true, some []⟩ "1"
    { store := [("1", c3Session)] } c3Session "gibberish" rfl rfl rfl rfl (by decide)

/-- C4 counterexample: when the Sink fails on the LAST candidate, the flow
does advance past it, but the session is NOT cleared and the final
`savedCount` is NOT reported (only "Process completed."). -/
theorem nlp_last_candidate_failure_keeps_session :
    (run ⟨0, 0, fun _ => false, some [{ amount := some 5 }]⟩ "1" {}
        [.modeNlp, .textMsg "coffee 5", .confirmMulti 1]).replies.getLast?
      = some .processCompleted ∧
    sessionsFind
        (run ⟨0, 0, fun _ => false, some [{ amount := some 5 }]⟩ "1" {}
          [.modeNlp, .textMsg "coffee 5", .confirmMulti 1]).store "1" ≠ none ∧
    (run ⟨0, 0, fun _ => false, some [{ amount := some 5 }]⟩ "1" {}
        [.modeNlp, .textMsg "coffee 5", .confirmMulti 1]).creates.length = 1 := by
  refine ⟨rfl, by decide, rfl⟩

/-- C4 (amended): in the NLP review loop a Sink failure on Confirm is
reported, `savedCount` is not incremented, and the flow still advances to the
next candidate; advancing past the last candidate on a SUCCESSFUL confirm
clears the session and reports the final count, but when the LAST candidate's
save fails the session is kept and only "Process completed." is emitted,
without the count. -/
theorem nlp_sink_failure_advances (env : Env) (cid : String) (w : World)
    (s : Session) (l : List TxData) (i : ℕ) (t : TxData)
    (hget : (storeGet env.now w.store cid).session = some s)
    (hl : s.parsedTransactions = some l)
    (ht : l.get? (i - 1) = some t) :
    (step env cid w (.confirmMulti i)).creates = w.creates ++ [t] ∧
    (env.sinkOk w.creates.length = false →
      sessionsFind (step env cid w (.confirmMulti i)).store cid = some s ∧
      (i < l.length →
        (step env cid w (.confirmMulti i)).replies =
          w.replies ++ [.multiFailContinue, .multiPreview (i + 1) l.length]) ∧
      (¬ i < l.length →
        (step env cid w (.confirmMulti i)).replies =
          w.replies ++ [.multiFailContinue, .processCompleted])) ∧
    (env.sinkOk w.creates.length = true → ¬ i < l.length →
      sessionsFind (step env cid w (.confirmMulti i)).store cid = none ∧
      (step env cid w (.confirmMulti i)).replies =
        w.replies ++ [.multiSavedOk (s.savedCount.getD 0 + 1)]) := by
  have hr := storeGet_eq hget
  have hfind := (storeGet_some hget).1
  have ht' : l[i - 1]? = some t := by simpa using ht
  have hnx : ¬ env.now - s.timestamp > SESSION_TIMEOUT := storeGet_not_expired hget
  refine ⟨?_, ?_, ?_⟩
  · cases hok : env.sinkOk w.creates.length <;> by_cases hi : i < l.length <;>
      simp [step, hr, hl, ht', hok, hi, showMultiTransactionPreview, World.reply,
        storeMutate, storeClear, storeGet_insert, hnx]
  · intro hok
    refine ⟨?_, ?_, ?_⟩
    · by_cases hi : i < l.length <;>
        simp [step, hr, hl, ht', hok, hi, showMultiTransactionPreview, World.reply, hfind]
    · intro hi
      simp [step, hr, hl, ht', hok, hi, showMultiTransactionPreview, World.reply]
    · intro hi
      simp [step, hr, hl, ht', hok, hi, World.reply]
  · intro hok hi
    constructor
    · simp [step, hr, hl, ht', hok, hi, World.reply, storeClear, storeMutate,
        sessionsFind_delete]
    · simp [step, hr, hl, ht', hok, hi, World.reply]

/-- Candidate used in the witness for C4's amended theorem. -/
def c4Cand : TxData := { amount := some 5 }

/-- Session used in the witness for C4's amended theorem. -/
def c4Session : Session :=
  { mode := some "nlp", step := some "confirm_multi",
    parsedTransactions := some [c4Cand], savedCount := some 0, timestamp := 0 }

/-- Environment used in the witness for C4's amended theorem (failing sink). -/
def c4Env : Env := ⟨0, 0, fun _ => false, some [c4Cand]⟩

/-- Witness for C4's amended theorem: one candidate, failing sink,
confirming candidate 1. -/
theorem nlp_sink_failure_advances_witness :
    (step c4Env "1" { store := [("1", c4Session)] } (.confirmMulti 1)).creates =
      ({ store := [("1", c4Session)] } : World).creates ++ [c4Cand] ∧
    (c4Env.sinkOk ({ store := [("1", c4Session)] } : World).creates.length = false →
      sessionsFind (step c4Env "1" { store := [("1", c4Session)] }
          (.confirmMulti 1)).store "1" = some c4Session ∧
      (1 < [c4Cand].length →
        (step c4Env "1" { store := [("1", c4Session)] } (.confirmMulti 1)).replies =
          ({ store := [("1", c4Session)] } : World).replies ++
            [.multiFailContinue, .multiPreview 2 [c4Cand].length]) ∧
      (¬ 1 < [c4Cand].length →
        (step c4Env "1" { store := [("1", c4Session)] } (.confirmMulti 1)).replies =
          ({ store := [("1", c4Session)] } : World).replies ++
            [.multiFailContinue, .processCompleted])) ∧
    (c4Env.sinkOk ({ store := [("1", c4Session)] } : World).creates.length = true →
      ¬ 1 < [c4Cand].length →
      sessionsFind (step c4Env "1" { store := [("1", c4Session)] }
          (.confirmMulti 1)).store "1" = none ∧
      (step c4Env "1" { store := [("1", c4Session)] } (.confirmMulti 1)).replies =
        ({ store := [("1", c4Session)] } : World).replies ++
          [.multiSavedOk (c4Session.savedCount.getD 0 + 1)]) :=
  nlp_sink_failure_advances c4Env "1" { store := [("1", c4Session)] } c4Session
    [c4Cand] 1 c4Cand rfl rfl rfl

/-- C9 counterexample: Session Store `get` does NOT refresh `lastActivity` —
reading a live session at time 5 returns it with its stored timestamp 0 and
leaves the store entry unchanged (still timestamp 0 ≠ 5). -/
theorem get_does_not_refresh_timestamp :
    (storeGet 5 [("1", { mode := some "manual", step := some "type", timestamp := 0 })]
        "1").session =
      some { mode := some "manual", step := some "type", timestamp := 0 } ∧
    sessionsFind
      (storeGet 5 [("1", { mode := some "manual", step := some "type", timestamp := 0 })]
          "1").store "1" =
      some { mode := some "manual", step := some "type", timestamp := 0 } ∧
    (0 : ℕ) ≠ 5 := by
  refine ⟨rfl, rfl, by decide⟩

/-- C9 (amended): `set` and `update` always refresh the stored timestamp to
now; `get`, however, does not modify the session it returns or the store — it
hands back the stored session with its old timestamp. -/
theorem set_update_refresh_timestamp (now : ℕ) (st : Store) (id : String)
    (d : Session) (p : SessionPatch) (s : Session)
    (hget : (storeGet now st id).session = some s) :
    sessionsFind (storeSet now st id d) id = some { d with timestamp := now } ∧
    (sessionsFind (storeUpdate now st id p) id).map Session.timestamp = some now ∧
    sessionsFind st id = some s ∧
    (storeGet now st id).store = st := by
  refine ⟨sessionsFind_insert .., ?_, (storeGet_some hget).1, (storeGet_some hget).2⟩
  unfold storeUpdate storeSet
  rw [sessionsFind_insert]
  rfl

/-- C7: Amount validator — for every input, the result is determined by
stripping currency symbols/separators and parsing the remainder
(`parseFloat`): a parse failure is rejected, a parsed value is accepted
exactly when it is positive and at most 1 000 000 000, and an accepted value
is the parsed value rounded to 2 decimal places; in particular
`"$1,234.5" ↦ 1234.50` and `"₹50" ↦ 50`, and zero and negative values are
always rejected. -/
theorem validateAmount_spec (s t : String) (q : ℚ)
    (hq : jsParseFloat (stripCurrency s) = JsNum.fin q)
    (ht : jsParseFloat (stripCurrency t) = JsNum.nan) :
    ((validateAmount s).isValid = true ↔ (0 < q ∧ q ≤ 1000000000)) ∧
    (validateAmount s = .valid (round2 q) ∨ (validateAmount s).isInvalid = true) ∧
    (validateAmount t).isInvalid = true ∧
    validateAmount "$1,234.5" = .valid (2469/2) ∧
    validateAmount "₹50" = .valid 50 ∧
    (validateAmount "0").isInvalid = true ∧
    (validateAmount "-5").isInvalid = true := by
  refine ⟨?_, ?_, ?_, by decide, by decide, by decide, by decide⟩
  · simp only [validateAmount, hq]
    split_ifs with h1 h2
    · exact iff_of_false (by simp [VResult.isValid])
        (fun hh => absurd h1 (not_le.mpr hh.1))
    · exact iff_of_false (by simp [VResult.isValid])
        (fun hh => absurd h2 (not_lt.mpr hh.2))
    · exact iff_of_true rfl ⟨not_le.mp h1, not_lt.mp h2⟩
  · simp only [validateAmount, hq]
    split_ifs
    · exact Or.inr rfl
    · exact Or.inr rfl
    · exact Or.inl rfl
  · simp only [validateAmount, ht]
    rfl

/-- Witness for C7 at `s = "$1,234.5"`, `q = 1234.5`, `t = "abc"`. -/
theorem validateAmount_spec_witness :
    ((validateAmount "$1,234.5").isValid = true ↔
      ((0 : ℚ) < 2469/2 ∧ (2469/2 : ℚ) ≤ 1000000000)) ∧
    (validateAmount "$1,234.5" = .valid (round2 (2469/2)) ∨
      (validateAmount "$1,234.5").isInvalid = true) ∧
    (validateAmount "abc").isInvalid = true ∧
    validateAmount "$1,234.5" = .valid (2469/2) ∧
    validateAmount "₹50" = .valid 50 ∧
    (validateAmount "0").isInvalid = true ∧
    (validateAmount "-5").isInvalid = true :=
  validateAmount_spec "$1,234.5" "abc" (2469/2) (by decide) (by decide)

theorem validateDate_le_today {today : Int} {s : String} {d : Int}
    (hacc : validateDate today s = .valid d) : d ≤ today := by
  simp only [validateDate] at hacc
  split at hacc
  · injection hacc with h; omega
  · split at hacc
    · injection hacc with h; omega
    · split at hacc
      · split at hacc
        · exact VResult.noConfusion hacc
        · injection hacc with h; omega
      · split at hacc
        · split at hacc
          · exact VResult.noConfusion hacc
          · injection hacc with h; omega
        · exact VResult.noConfusion hacc

/-- C8: Date validator — every accepted date is at most `today` (strictly
future dates are always rejected); the literal tokens resolve to exactly
`today` and `today - 1`; ISO `YYYY-MM-DD` is accepted (when not future);
two-part numeric dates are resolved day-before-month, so `"05/02/2024"` is
February 5 (= the day the ISO form `"2024-02-05"` denotes), not May 2; and
unparseable strings are rejected. -/
theorem validateDate_spec (today : Int) (s : String) (d : Int)
    (hacc : validateDate today s = .valid d) :
    d ≤ today ∧
    validateDate today "today" = .valid today ∧
    validateDate today "yesterday" = .valid (today - 1) ∧
    validateDate 20738 "2024-02-05" = .valid (daysFromCivil 2024 2 5) ∧
    validateDate 20738 "05/02/2024" = .valid (daysFromCivil 2024 2 5) ∧
    validateDate 19757 "2024-02-05" = .invalid "Date cannot be in the future" ∧
    (validateDate today "not a date").isInvalid = true :=
  ⟨validateDate_le_today hacc, rfl, rfl, by decide, by decide, by decide, rfl⟩

/-- Witness for C8 at `today = 20738` (2026-10-12) and `s = "today"`. -/
theorem validateDate_spec_witness :
    (20738 : Int) ≤ 20738 ∧
    validateDate 20738 "today" = .valid 20738 ∧
    validateDate 20738 "yesterday" = .valid (20738 - 1) ∧
    validateDate 20738 "2024-02-05" = .valid (daysFromCivil 2024 2 5) ∧
    validateDate 20738 "05/02/2024" = .valid (daysFromCivil 2024 2 5) ∧
    validateDate 19757 "2024-02-05" = .invalid "Date cannot be in the future" ∧
    (validateDate 20738 "not a date").isInvalid = true :=
  validateDate_spec 20738 "today" 20738 rfl

theorem capitalizeCategory_eq_normalized (category : Option String) :
    capitalizeCategory category = normalizedCategory category := by
  cases category with
  | none => rfl
  | some s =>
    obtain ⟨cs⟩ := s
    cases cs with
    | nil => rfl
    | cons c cs' =>
      simp only [capitalizeCategory, normalizedCategory]
      rw [if_neg (by simp [String.ext_iff])]
      simp

/-- C10: every transaction persisted through `createTransaction` stores the
category normalized to first-letter-uppercase/rest-lowercase (with a missing
or empty category stored as "Other"), defaults a missing date to the current
time, and stores amount, type and description exactly as given. -/
theorem createTransaction_normalization (nowDate : Int) (td : TxData) :
    (createTransactionRecord nowDate td).category = normalizedCategory td.category ∧
    (createTransactionRecord nowDate td).date = td.date.getD nowDate ∧
    (createTransactionRecord nowDate td).amount = td.amount ∧
    (createTransactionRecord nowDate td).type = td.type ∧
    (createTransactionRecord nowDate td).description = td.description ∧
    normalizedCategory none = "Other" ∧
    normalizedCategory (some "") = "Other" ∧
    normalizedCategory (some "fOOD") = "Food" :=
  ⟨capitalizeCategory_eq_normalized td.category, rfl, rfl, rfl, rfl, rfl, rfl, by decide⟩

/-- Witness for C9's amended theorem at a concrete store and patch. -/
theorem set_update_refresh_timestamp_witness :
    sessionsFind
        (storeSet 7 [("1", { mode := some "nlp", timestamp := 2 })] "1"
          { mode := some "manual", timestamp := 2 }) "1" =
      some { mode := some "manual", timestamp := 7 } ∧
    (sessionsFind
        (storeUpdate 7 [("1", { mode := some "nlp", timestamp := 2 })] "1"
          { step := some "amount" }) "1").map Session.timestamp = some 7 ∧
    sessionsFind [("1", { mode := some "nlp", timestamp := 2 })] "1" =
      some { mode := some "nlp", timestamp := 2 } ∧
    (storeGet 7 [("1", { mode := some "nlp", timestamp := 2 })] "1").store =
      [("1", { mode := some "nlp", timestamp := 2 })] :=
  set_update_refresh_timestamp 7 [("1", { mode := some "nlp", timestamp := 2 })] "1"
    { mode := some "manual", timestamp := 2 } { step := some "amount" }
    { mode := some "nlp", timestamp := 2 } rfl

end

end Finalyze
